import Mathlib

/-!
# browser-agent: the `POST /analyze` handler of `server.js`

A shallow embedding of the request handler of `src/server.js` (lines 13-127):

* the page function of the first `page.evaluate` (lines 39-51) is the pure
  function `extract` over a `Document`;
* the handler itself is the function `handler` from a `World` (the outcome of
  every awaited call the handler makes: Puppeteer, Express and the string
  built-in `toLowerCase`) and a `Request` to a `Run`: the external calls made,
  in order, the lines appended to the local variable `report`, and whether the
  handler's promise was fulfilled.

JavaScript strings that are only compared, searched or concatenated are Lean
strings; the body text, which is sliced by position, is a list of UTF-16 code
units.
-/

namespace BrowserAgent

/-! ## JavaScript helpers -/

/-- One UTF-16 code unit of a JavaScript string. -/
abbrev CodeUnit := UInt16

/-- The method `s.includes(pat)`: `pat` occurs in `s` as a contiguous block. -/
def includes {α : Type} [DecidableEq α] : List α → List α → Bool
  | [], pat => pat.isPrefixOf []
  | c :: s, pat => pat.isPrefixOf (c :: s) || includes s pat

/-- The method `String.prototype.slice(start, end)` (ECMAScript 22.1.3.23) on a
string of length `len`: a negative index counts from the end, both are clamped to
`[0, len]`, and the result is empty when the clamped end is not after the
clamped start. -/
def slice {α : Type} (s : List α) (start stop : Int) : List α :=
  let len : Int := s.length
  let lo := if start < 0 then max (len + start) 0 else min start len
  let hi := if stop < 0 then max (len + stop) 0 else min stop len
  (s.drop lo.toNat).take (hi - lo).toNat

/-- ASCII lower-casing of one character, as used when an attribute selector
compares a case-insensitive attribute value. -/
def asciiLower (c : Char) : Char :=
  if 65 ≤ c.toNat ∧ c.toNat ≤ 90 then Char.ofNat (c.toNat + 32) else c

/-- Lower-casing of the characters whose lower case is an ASCII letter: the
letters `A` to `Z` and the Kelvin sign U+212A, whose lower case is `k`. Other
characters are kept. -/
def lowerToAscii (c : Char) : Char :=
  if c.toNat = 0x212A then Char.ofNat 107 else asciiLower c

/-! ## The document and the page function of the main `page.evaluate` -/

/-- An `input` element, with the three attributes the selectors look at. An
absent attribute is `none`. -/
structure InputElement where
  type : Option String
  name : Option String
  placeholder : Option String
  deriving DecidableEq, Repr

/-- The state of the loaded document that the page functions read. The
document has a body: a page function that fails (for instance on a document
without a body) is a `page.evaluate` that throws. -/
structure Document where
  title : String
  href : String
  protocol : String
  hostname : String
  /-- All `input` elements of the document, in document order. -/
  inputs : List InputElement
  /-- The value of `document.forms.length`. -/
  formCount : Nat
  /-- The value of `document.body.innerText`. -/
  innerText : List CodeUnit
  deriving DecidableEq, Repr

/-- The attribute selector `[attr*="val"]` for a non-empty `val`: the attribute
is present and its value contains `val`. -/
def attrContains (attr : Option String) (val : String) : Bool :=
  match attr with
  | none => false
  | some v => includes v.toList val.toList

/-- The attribute selector `[type="val"]` on an HTML element: the values of
`type` are compared ASCII case-insensitively. -/
def typeIs (attr : Option String) (val : String) : Bool :=
  match attr with
  | none => false
  | some v => v.toList.map asciiLower == val.toList.map asciiLower

/-- The object returned by the page function (lines 40-50). -/
structure Analysis where
  title : String
  finalUrl : String
  hasPasswordField : Bool
  hasPaymentFields : Bool
  hasSuspiciousFields : Bool
  formCount : Nat
  textContent : List CodeUnit
  hasHttps : Bool
  domain : String
  deriving DecidableEq, Repr

/-- The page function of the main `page.evaluate` (lines 39-51).
`!!document.querySelector(sel)` is true when some element matches one of the
selectors of the list `sel`. -/
def extract (d : Document) : Analysis where
  title := d.title
  finalUrl := d.href
  hasPasswordField := d.inputs.any fun i => typeIs i.type "password"
  hasPaymentFields := d.inputs.any fun i =>
    attrContains i.name "card" || attrContains i.name "credit" || attrContains i.name "cvv"
  hasSuspiciousFields := d.inputs.any fun i =>
    attrContains i.name "ssn" || attrContains i.name "social"
      || attrContains i.placeholder "social"
  formCount := d.formCount
  textContent := slice d.innerText 0 1500
  hasHttps := d.protocol == "https:"
  domain := d.hostname

/-- The object returned by the page function of the second `page.evaluate`
(lines 80-84). -/
structure CheckoutAnalysis where
  url : String
  title : String
  hasPaymentForm : Bool
  deriving DecidableEq, Repr

/-- The page function of the second `page.evaluate` (lines 80-84). -/
def extractCheckout (d : Document) : CheckoutAnalysis where
  url := d.href
  title := d.title
  hasPaymentForm := d.inputs.any fun i => attrContains i.name "card"

/-! ## The classification (lines 98-108) -/

/-- The three values the variable `safetyLevel` takes. -/
inductive SafetyLevel where
  | SAFE
  | CAUTION
  | DANGEROUS
  deriving DecidableEq, Repr

/-- The text of a level, as stored in `safetyLevel`. -/
def SafetyLevel.text : SafetyLevel → String
  | .SAFE => "SAFE"
  | .CAUTION => "CAUTION"
  | .DANGEROUS => "DANGEROUS"

/-- The value of `safetyEmoji` set together with the level. -/
def SafetyLevel.emoji : SafetyLevel → String
  | .SAFE => "✅"
  | .CAUTION => "⚠️"
  | .DANGEROUS => "🚨"

/-- Final safety assessment (lines 99-108). -/
def safetyLevel (a : Analysis) : SafetyLevel :=
  if a.hasSuspiciousFields || !a.hasHttps then .DANGEROUS
  else if a.hasPaymentFields then .CAUTION
  else .SAFE

/-! ## The request, the report and the response -/

/-- A field destructured from `req.body` (line 14). -/
inductive BodyField where
  /-- The field is absent from the JSON body. -/
  | undefined
  | null
  | string (s : String)
  /-- A number, boolean, array or object; `shown` is its conversion to a
  string. -/
  | other (shown : String)
  deriving DecidableEq, Repr

/-- The request body `{ url, userQuery }`. -/
structure Request where
  url : BodyField
  userQuery : BodyField
  deriving DecidableEq, Repr

/-- The text a template literal puts for the field. -/
def BodyField.interpolate : BodyField → String
  | .undefined => "undefined"
  | .null => "null"
  | .string s => s
  | .other shown => shown

/-- One `report += ...` of the handler (the initial value of line 29
included). -/
inductive Line where
  | starting
  | navigating (url : String)
  | pageTitle (title : String)
  | domain (hostname : String)
  | https (secure : Bool)
  | cardWarning
  | ssnDanger
  | notHttpsWarning
  | foundCheckout
  | checkoutPage (title : String)
  | paymentForm
  | checkoutFailed
  | assessment (level : SafetyLevel)
  deriving DecidableEq, Repr

/-- The text each `report += ...` appends. -/
def Line.text : Line → String
  | .starting => "🔍 Browser agent starting analysis...\n\n"
  | .navigating url => "📍 Navigating to: " ++ url ++ "\n"
  | .pageTitle title => "📄 Page Title: \"" ++ title ++ "\"\n"
  | .domain hostname => "🌐 Domain: " ++ hostname ++ "\n"
  | .https secure => "🔒 HTTPS: " ++ (if secure then "✅ Secure" else "❌ Not Secure") ++ "\n"
  | .cardWarning => "🚨 WARNING: Credit card fields detected\n"
  | .ssnDanger => "🚨 DANGER: Asking for SSN/Social Security number\n"
  | .notHttpsWarning => "🚨 WARNING: Site is not using HTTPS encryption\n"
  | .foundCheckout => "🛒 Found checkout button, investigating...\n"
  | .checkoutPage title => "📍 Checkout page: " ++ title ++ "\n"
  | .paymentForm => "💳 Payment form found on checkout\n"
  | .checkoutFailed => "❌ Couldn't access checkout page\n"
  | .assessment level => "\n" ++ level.emoji ++ " SAFETY ASSESSMENT: " ++ level.text ++ "\n"

/-- The value of `report` after the given appends. -/
def render (lines : List Line) : String :=
  String.join (lines.map Line.text)

/-- A value of a response field. -/
inductive JsonValue where
  | bool (b : Bool)
  | string (s : String)
  deriving DecidableEq, Repr

/-- An object literal passed to `res.json`: its fields in order. -/
abbrev JsonObject := List (String × JsonValue)

/-- The object of lines 112-116. -/
def successBody (report : String) (level : SafetyLevel) : JsonObject :=
  [("success", .bool true), ("report", .string report), ("safetyLevel", .string level.text)]

/-- The object of lines 121-125; `message` is `error.message`. -/
def failureBody (message : String) : JsonObject :=
  [("success", .bool false), ("error", .string ("Analysis failed: " ++ message)),
   ("report", .string "❌ Could not analyze this website")]

/-! ## The world the handler runs in -/

/-- What an awaited call does: it returns a value, or throws an error with a
message. -/
inductive Outcome (α : Type) where
  | returns (value : α)
  | throws (message : String)
  deriving DecidableEq, Repr

/-- The outcome of everything the handler calls, one field per call site. Each
site is executed at most once in a request. -/
structure World where
  /-- The built-in `String.prototype.toLowerCase`. -/
  toLowerCase : String → String
  /-- The call `puppeteer.launch(...)` (line 19); the browser object is truthy. -/
  launch : Outcome Unit
  /-- The call `browser.newPage()` (line 28). -/
  newPage : Outcome Unit
  /-- The call `page.goto(url, ...)` (line 33); exceeding the 30 s timeout
  throws. -/
  goto : Outcome Unit
  /-- The `page.evaluate` of line 39: the document the page function runs on. -/
  mainDocument : Outcome Document
  /-- The call `page.$(...)` (line 74): `true` for an element handle, `false`
  for `null`. The selector list of line 74 contains `button:contains("checkout")`,
  and `:contains()` is not a CSS selector: in Chromium the lookup throws a
  `SyntaxError` on every page, so the outcome of a real run is `throws`. -/
  query : Outcome Bool
  /-- The call `checkoutBtn.click()` (line 77). -/
  click : Outcome Unit
  /-- The call `page.waitForTimeout(3000)` (line 78). -/
  waitForTimeout : Outcome Unit
  /-- The `page.evaluate` of line 80: the document the page function runs on. -/
  checkoutDocument : Outcome Document
  /-- The `browser.close()` of line 96. -/
  close : Outcome Unit
  /-- The `res.json` of line 112. -/
  jsonSuccess : Outcome Unit
  /-- The `browser.close()` of line 119. -/
  closeInCatch : Outcome Unit
  /-- The `res.json` of line 121. -/
  jsonFailure : Outcome Unit

/-- An external call made by the handler. -/
inductive Call where
  | launch
  | newPage
  | goto (url : BodyField)
  | evaluate
  | query
  | click
  | waitForTimeout (ms : Nat)
  | evaluateCheckout
  | close
  | json (body : JsonObject)
  deriving DecidableEq, Repr

/-- The object a call passes to `res.json`, if it is one. -/
def Call.body? : Call → Option JsonObject
  | .json body => some body
  | _ => none

/-! ## The handler (lines 13-127) -/

/-- The message of the `TypeError` for reading `toLowerCase` of `undefined`. -/
def undefinedMessage : String :=
  "Cannot read properties of undefined (reading 'toLowerCase')"

/-- The condition of line 72. Calling `toLowerCase` on a value that is not a
string throws a `TypeError`. -/
def checkoutCondition (w : World) : BodyField → Outcome Bool
  | .string q =>
    .returns (includes (w.toLowerCase q).toList "checkout".toList
      || includes (w.toLowerCase q).toList "payment".toList)
  | .undefined => .throws undefinedMessage
  | .null => .throws "Cannot read properties of null (reading 'toLowerCase')"
  | .other _ => .throws "userQuery.toLowerCase is not a function"

/-- Lines 54-69: the lines appended after the main extraction. -/
def analysisLines (a : Analysis) : List Line :=
  [.pageTitle a.title, .domain a.domain, .https a.hasHttps]
    ++ (if a.hasPaymentFields then [.cardWarning] else [])
    ++ (if a.hasSuspiciousFields then [.ssnDanger] else [])
    ++ (if !a.hasHttps then [.notHttpsWarning] else [])

/-- The inner `try`/`catch` of lines 73-93: the calls made and the lines
appended. An error thrown inside is caught at line 91. -/
def checkoutStep (w : World) : List Call × List Line :=
  match w.query with
  | .throws _ => ([.query], [.checkoutFailed])
  | .returns false => ([.query], [])
  | .returns true =>
    match w.click with
    | .throws _ => ([.query, .click], [.foundCheckout, .checkoutFailed])
    | .returns _ =>
      match w.waitForTimeout with
      | .throws _ =>
        ([.query, .click, .waitForTimeout 3000], [.foundCheckout, .checkoutFailed])
      | .returns _ =>
        match w.checkoutDocument with
        | .throws _ =>
          ([.query, .click, .waitForTimeout 3000, .evaluateCheckout],
            [.foundCheckout, .checkoutFailed])
        | .returns d =>
          ([.query, .click, .waitForTimeout 3000, .evaluateCheckout],
            [.foundCheckout, .checkoutPage (extractCheckout d).title]
              ++ (if (extractCheckout d).hasPaymentForm then [.paymentForm] else []))

/-- The state in which control leaves the outer `try` block. -/
structure TryState where
  /-- The variable `browser` has been assigned. -/
  browser : Bool
  calls : List Call
  report : List Line
  /-- The message of the error that left the block, if one did. -/
  thrown : Option String
  deriving DecidableEq, Repr

/-- Lines 96-116: closing the browser, the assessment and the response. -/
def finish (w : World) (a : Analysis) (calls : List Call) (report : List Line) : TryState :=
  match w.close with
  | .throws m => ⟨true, calls ++ [.close], report, some m⟩
  | .returns _ =>
    let report := report ++ [.assessment (safetyLevel a)]
    let calls := calls ++ [.close, .json (successBody (render report) (safetyLevel a))]
    match w.jsonSuccess with
    | .throws m => ⟨true, calls, report, some m⟩
    | .returns _ => ⟨true, calls, report, none⟩

/-- The outer `try` block (lines 17-116). -/
def tryBlock (w : World) (req : Request) : TryState :=
  match w.launch with
  | .throws m => ⟨false, [.launch], [], some m⟩
  | .returns _ =>
    match w.newPage with
    | .throws m => ⟨true, [.launch, .newPage], [], some m⟩
    | .returns _ =>
      let report := [Line.starting, .navigating req.url.interpolate]
      match w.goto with
      | .throws m => ⟨true, [.launch, .newPage, .goto req.url], report, some m⟩
      | .returns _ =>
        let calls := [Call.launch, .newPage, .goto req.url, .evaluate]
        match w.mainDocument with
        | .throws m => ⟨true, calls, report, some m⟩
        | .returns d =>
          let report := report ++ analysisLines (extract d)
          match checkoutCondition w req.userQuery with
          | .throws m => ⟨true, calls, report, some m⟩
          | .returns false => finish w (extract d) calls report
          | .returns true =>
            finish w (extract d) (calls ++ (checkoutStep w).1) (report ++ (checkoutStep w).2)

/-- What a run of the handler did. -/
structure Run where
  /-- The external calls, in order. -/
  calls : List Call
  /-- The lines appended to `report`, in order. -/
  report : List Line
  /-- The handler returned; `false` when an error left the `catch` block. -/
  fulfilled : Bool
  deriving DecidableEq, Repr

/-- The `catch` block (lines 118-126), entered with the error message. -/
def catchBlock (w : World) (t : TryState) (message : String) : Run :=
  let send (calls : List Call) : Run :=
    match w.jsonFailure with
    | .throws _ => ⟨calls ++ [.json (failureBody message)], t.report, false⟩
    | .returns _ => ⟨calls ++ [.json (failureBody message)], t.report, true⟩
  if t.browser then
    match w.closeInCatch with
    | .throws _ => ⟨t.calls ++ [.close], t.report, false⟩
    | .returns _ => send (t.calls ++ [.close])
  else send t.calls

/-- The handler of `POST /analyze`. -/
def handler (w : World) (req : Request) : Run :=
  match (tryBlock w req).thrown with
  | none => ⟨(tryBlock w req).calls, (tryBlock w req).report, true⟩
  | some m => catchBlock w (tryBlock w req) m

/-! ## Observations on a run -/

/-- How many times `browser.close()` was called. -/
def Run.closeCount (r : Run) : Nat :=
  r.calls.count .close

/-- The objects passed to `res.json`, in order. -/
def Run.responses (r : Run) : List JsonObject :=
  r.calls.filterMap Call.body?

/-- The value of a field of a response object. -/
def field (body : JsonObject) (key : String) : Option JsonValue :=
  body.lookup key

/-! ## Sample worlds -/

/-- A page served over HTTPS with one text input. -/
def plainDocument : Document where
  title := "Shop"
  href := "https://shop.example/"
  protocol := "https:"
  hostname := "shop.example"
  inputs := [⟨some "text", some "q", some "Search"⟩]
  formCount := 1
  innerText := []

/-- The message of the error of `page.$` for the selector list of line 74. -/
def selectorMessage : String :=
  "SyntaxError: Failed to execute 'querySelector' on 'Document': not a valid selector"

/-- A world in which every call returns, except the lookup of line 74, which
throws as it does in the browser. Its `toLowerCase` lowers the letters `A` to
`Z` and the Kelvin sign, which is the built-in on the ASCII text of the sample
requests. -/
def calmWorld : World where
  toLowerCase := fun s => String.mk (s.toList.map lowerToAscii)
  launch := .returns ()
  newPage := .returns ()
  goto := .returns ()
  mainDocument := .returns plainDocument
  query := .throws selectorMessage
  click := .returns ()
  waitForTimeout := .returns ()
  checkoutDocument := .returns plainDocument
  close := .returns ()
  jsonSuccess := .returns ()
  closeInCatch := .returns ()
  jsonFailure := .returns ()

/-- The request of the spec's example. -/
def checkoutRequest : Request where
  url := .string "https://shop.example/"
  userQuery := .string "I want to checkout now"

/-- A page whose only input has the placeholder `ssn` and no name. -/
def ssnPlaceholderPage : Document where
  title := "Form"
  href := "https://form.example/"
  protocol := "https:"
  hostname := "form.example"
  inputs := [⟨none, none, some "ssn"⟩]
  formCount := 1
  innerText := []

/-- The flag as the specification words it: some input has a name or a
placeholder that contains `ssn` or `social`. -/
def suspiciousPerSpec (d : Document) : Bool :=
  d.inputs.any fun i =>
    attrContains i.name "ssn" || attrContains i.name "social"
      || attrContains i.placeholder "ssn" || attrContains i.placeholder "social"

/-- A page served over plain HTTP with a card-number input and nothing
suspicious. -/
def insecureShop : Document where
  title := "Pay"
  href := "http://pay.example/"
  protocol := "http:"
  hostname := "pay.example"
  inputs := [⟨some "text", some "cardnumber", none⟩]
  formCount := 1
  innerText := []

/-- The same page served over HTTPS. -/
def secureShop : Document :=
  { insecureShop with href := "https://pay.example/", protocol := "https:" }

/-- A request whose body has no `userQuery`. -/
def bareRequest : Request where
  url := .string "https://shop.example/"
  userQuery := .undefined

/-- The world of `calmWorld` on the plain-HTTP payment page. -/
def insecureWorld : World :=
  { calmWorld with mainDocument := .returns insecureShop }

/-- The world of `calmWorld` on the HTTPS payment page. -/
def secureWorld : World :=
  { calmWorld with mainDocument := .returns secureShop }

/-- The browser cannot be launched. -/
def launchFailsWorld : World :=
  { calmWorld with launch := .throws "Failed to launch the browser process!" }

/-- The `browser.close()` of line 96 throws. -/
def closeThrowsWorld : World :=
  { calmWorld with close := .throws "Protocol error: Connection closed." }

/-- Sending the success response throws. -/
def sendThrowsWorld : World :=
  { calmWorld with jsonSuccess := .throws "Cannot set headers after they are sent to the client" }

/-- The navigation exceeds its timeout. -/
def timeoutWorld : World :=
  { calmWorld with goto := .throws "Navigation timeout of 30000 ms exceeded" }

/-- The navigation exceeds its timeout and the `browser.close()` of the catch
block throws. -/
def timeoutCloseThrowsWorld : World :=
  { timeoutWorld with closeInCatch := .throws "Protocol error: Connection closed." }

/-- Every call returns but the `browser.close()` of the catch block. -/
def catchCloseThrowsWorld : World :=
  { calmWorld with closeInCatch := .throws "Protocol error: Connection closed." }

/-- A request whose query mentions neither checkout nor payment. -/
def safeQueryRequest : Request where
  url := .string "https://shop.example/"
  userQuery := .string "is this site safe?"

/-! ## Vocabulary of the statements -/

/-- Some operation of the checkout step throws: locating the element,
clicking it, the wait, or the second extraction, each when it is reached. -/
def checkoutStepThrows (w : World) : Bool :=
  match w.query with
  | .throws _ => true
  | .returns false => false
  | .returns true =>
    match w.click with
    | .throws _ => true
    | .returns _ =>
      match w.waitForTimeout with
      | .throws _ => true
      | .returns _ =>
        match w.checkoutDocument with
        | .throws _ => true
        | .returns _ => false

/-- The lines of the checkout section. -/
def Line.isCheckoutSection : Line → Bool
  | .foundCheckout => true
  | .checkoutPage _ => true
  | .paymentForm => true
  | _ => false

/-- The error thrown by the first of launch, page creation, navigation and
main extraction that throws, if one does. -/
def setupError (w : World) : Option String :=
  match w.launch with
  | .throws m => some m
  | .returns _ =>
    match w.newPage with
    | .throws m => some m
    | .returns _ =>
      match w.goto with
      | .throws m => some m
      | .returns _ =>
        match w.mainDocument with
        | .throws m => some m
        | .returns _ => none

/-- What a response says apart from the report text. -/
def verdict (body : JsonObject) : Option JsonValue × Option JsonValue × Option JsonValue :=
  (field body "success", field body "safetyLevel", field body "error")

/-! ## Lemmas on the helpers -/

theorem includes_iff {α : Type} [DecidableEq α] (s pat : List α) :
    includes s pat = true ↔ pat <:+: s := by
  induction s with
  | nil => simp [includes]
  | cons c s ih => simp [includes, ih, List.infix_cons_iff]

theorem attrContains_iff (attr : Option String) (val : String) :
    attrContains attr val = true ↔ ∃ v, attr = some v ∧ val.toList <:+: v.toList := by
  cases attr with
  | none => simp [attrContains]
  | some v => simp [attrContains, includes_iff]

theorem slice_zero {α : Type} (s : List α) (n : Nat) : slice s 0 n = s.take n := by
  simp only [slice, lt_self_iff_false, if_false]
  have h1 : ¬ ((n : Int) < 0) := by omega
  simp only [h1, if_false]
  have h2 : min (0 : Int) (s.length : Int) = 0 := by omega
  rw [h2]
  simp only [Int.toNat_zero, List.drop_zero, sub_zero]
  rcases Nat.le_total n s.length with h | h
  · have : min (n : Int) (s.length : Int) = n := by omega
    rw [this]; simp
  · have : min (n : Int) (s.length : Int) = s.length := by omega
    rw [this]; simp [List.take_of_length_le h]

/-! ## The extraction -/

/-- C4 (as the code has it): the extracted `hasSuspiciousFields` flag is true
exactly when some input has a name that contains `ssn` or `social`, or a
placeholder that contains `social`. -/
theorem hasSuspiciousFields_iff (d : Document) :
    (extract d).hasSuspiciousFields = true ↔
      ∃ i ∈ d.inputs,
        (∃ n, i.name = some n ∧ ("ssn".toList <:+: n.toList ∨ "social".toList <:+: n.toList))
        ∨ (∃ p, i.placeholder = some p ∧ "social".toList <:+: p.toList) := by
  simp only [extract, List.any_eq_true, Bool.or_eq_true, attrContains_iff]
  constructor
  · rintro ⟨i, hi, (⟨n, hn, h⟩ | ⟨n, hn, h⟩) | ⟨p, hp, h⟩⟩
    · exact ⟨i, hi, Or.inl ⟨n, hn, Or.inl h⟩⟩
    · exact ⟨i, hi, Or.inl ⟨n, hn, Or.inr h⟩⟩
    · exact ⟨i, hi, Or.inr ⟨p, hp, h⟩⟩
  · rintro ⟨i, hi, ⟨n, hn, h | h⟩ | ⟨p, hp, h⟩⟩
    · exact ⟨i, hi, Or.inl (Or.inl ⟨n, hn, h⟩)⟩
    · exact ⟨i, hi, Or.inl (Or.inr ⟨n, hn, h⟩)⟩
    · exact ⟨i, hi, Or.inr ⟨p, hp, h⟩⟩

/-- C4 (as stated) fails: an input whose placeholder is `ssn` and that has no
name makes the flag of the specification true and the extracted flag false. -/
theorem hasSuspiciousFields_misses_ssn_placeholder :
    suspiciousPerSpec ssnPlaceholderPage = true
      ∧ (∃ i ∈ ssnPlaceholderPage.inputs, ∃ p, i.placeholder = some p ∧ includes p.toList "ssn".toList = true)
      ∧ (extract ssnPlaceholderPage).hasSuspiciousFields = false := by
  refine ⟨by decide, ⟨⟨none, none, some "ssn"⟩, by decide, "ssn", rfl, by decide⟩, by decide⟩

/-- C5: the text excerpt of the main extraction is the first
`min 1500 (length of the body text)` code units of the body text; it is a
beginning of that text, has at most 1500 code units, and is the whole text
when the text has at most 1500. -/
theorem textContent_spec (d : Document) :
    (extract d).textContent = d.innerText.take (min 1500 d.innerText.length)
      ∧ (extract d).textContent <+: d.innerText
      ∧ (extract d).textContent.length = min 1500 d.innerText.length
      ∧ (extract d).textContent.length ≤ 1500
      ∧ (d.innerText.length ≤ 1500 → (extract d).textContent = d.innerText) := by
  have h : (extract d).textContent = d.innerText.take 1500 := slice_zero d.innerText 1500
  have hmin : d.innerText.take (min 1500 d.innerText.length) = d.innerText.take 1500 := by
    rcases Nat.le_total 1500 d.innerText.length with h1 | h1
    · rw [Nat.min_eq_left h1]
    · rw [Nat.min_eq_right h1, List.take_length, List.take_of_length_le h1]
  refine ⟨h.trans hmin.symm, ?_, ?_, ?_, ?_⟩
  · rw [h]; exact List.take_prefix _ _
  · rw [h, List.length_take]
  · rw [h, List.length_take]; exact Nat.min_le_left _ _
  · intro hle; rw [h, List.take_of_length_le hle]

/-- C5 at a body text of three code units: the excerpt is the whole text. -/
theorem textContent_spec_witness :
    (extract { plainDocument with innerText := [104, 105, 33] }).textContent = [104, 105, 33] :=
  (textContent_spec { plainDocument with innerText := [104, 105, 33] }).2.2.2.2 (by decide)

/-! ## Lemmas on the handler -/

theorem checkoutStep_count_close (w : World) : (checkoutStep w).1.count Call.close = 0 := by
  unfold checkoutStep
  split
  · rfl
  · rfl
  · split
    · rfl
    · split
      · rfl
      · split <;> rfl

theorem checkoutStep_responses (w : World) : (checkoutStep w).1.filterMap Call.body? = [] := by
  unfold checkoutStep
  split
  · rfl
  · rfl
  · split
    · rfl
    · split
      · rfl
      · split <;> rfl

theorem catchBlock_closeCount (w : World) (t : TryState) (m : String) :
    (catchBlock w t m).closeCount = t.calls.count .close + (if t.browser then 1 else 0) := by
  cases hb : t.browser <;> cases hc : w.closeInCatch <;> cases hj : w.jsonFailure
    <;> simp [catchBlock, Run.closeCount, hb, hc, hj, List.count_cons]

theorem catchBlock_report (w : World) (t : TryState) (m : String) :
    (catchBlock w t m).report = t.report := by
  cases hb : t.browser <;> cases hc : w.closeInCatch <;> cases hj : w.jsonFailure
    <;> simp [catchBlock, hb, hc, hj]

theorem catchBlock_responses (w : World) (t : TryState) (m : String) :
    (catchBlock w t m).responses = t.calls.filterMap Call.body?
      ++ (if t.browser = true ∧ w.closeInCatch ≠ .returns () then [] else [failureBody m]) := by
  cases hb : t.browser <;> cases hc : w.closeInCatch <;> cases hj : w.jsonFailure
    <;> simp [catchBlock, Run.responses, hb, hc, hj, List.filterMap_append, Call.body?]

theorem finish_count_close (w : World) (a : Analysis) (calls : List Call) (report : List Line) :
    (finish w a calls report).calls.count .close = calls.count .close + 1
      ∧ (finish w a calls report).browser = true
      ∧ ((finish w a calls report).thrown = none ↔
          w.close = .returns () ∧ w.jsonSuccess = .returns ()) := by
  cases hc : w.close <;> cases hj : w.jsonSuccess
    <;> simp [finish, hc, hj, List.count_cons, List.count_append]

theorem handler_closeCount (w : World) (req : Request) :
    (handler w req).closeCount = (tryBlock w req).calls.count .close
      + (if (tryBlock w req).thrown.isSome ∧ (tryBlock w req).browser = true then 1 else 0) := by
  unfold handler
  split
  next h => simp [Run.closeCount, h]
  next m h => simp [catchBlock_closeCount, h]

theorem checkoutStep_not_mem (w : World) :
    Line.cardWarning ∉ (checkoutStep w).2 ∧ Line.ssnDanger ∉ (checkoutStep w).2
      ∧ Line.notHttpsWarning ∉ (checkoutStep w).2 := by
  unfold checkoutStep
  split
  · simp
  · simp
  · split
    · simp
    · split
      · simp
      · split
        · simp
        · split <;> simp

theorem handler_report (w : World) (req : Request) :
    (handler w req).report = (tryBlock w req).report := by
  unfold handler
  split
  · rfl
  · exact catchBlock_report _ _ _

theorem handler_responses (w : World) (req : Request) :
    (handler w req).responses = (tryBlock w req).calls.filterMap Call.body?
      ++ (match (tryBlock w req).thrown with
          | none => []
          | some m =>
            if (tryBlock w req).browser = true ∧ w.closeInCatch ≠ .returns () then []
            else [failureBody m]) := by
  unfold handler
  split
  next h => simp [Run.responses, h]
  next m h => simp [catchBlock_responses, h]

theorem tryBlock_analysed (w : World) (req : Request) (d : Document)
    (hl : w.launch = .returns ()) (hn : w.newPage = .returns ()) (hg : w.goto = .returns ())
    (hd : w.mainDocument = .returns d) :
    tryBlock w req =
      match checkoutCondition w req.userQuery with
      | .throws m =>
        ⟨true, [.launch, .newPage, .goto req.url, .evaluate],
          [Line.starting, .navigating req.url.interpolate] ++ analysisLines (extract d), some m⟩
      | .returns false =>
        finish w (extract d) [.launch, .newPage, .goto req.url, .evaluate]
          ([Line.starting, .navigating req.url.interpolate] ++ analysisLines (extract d))
      | .returns true =>
        finish w (extract d) ([.launch, .newPage, .goto req.url, .evaluate] ++ (checkoutStep w).1)
          ([Line.starting, .navigating req.url.interpolate] ++ analysisLines (extract d)
            ++ (checkoutStep w).2) := by
  simp only [tryBlock, hl, hn, hg, hd]

theorem render_concat (lines : List Line) (l : Line) :
    render (lines ++ [l]) = render lines ++ l.text := by
  simp [render, String.join, List.foldl_append]

theorem field_failureBody (m : String) :
    field (failureBody m) "success" = some (.bool false)
      ∧ field (failureBody m) "error" = some (.string ("Analysis failed: " ++ m))
      ∧ field (failureBody m) "report" = some (.string "❌ Could not analyze this website")
      ∧ field (failureBody m) "safetyLevel" = none :=
  ⟨rfl, rfl, rfl, rfl⟩

theorem field_successBody (report : String) (level : SafetyLevel) :
    field (successBody report level) "success" = some (.bool true)
      ∧ field (successBody report level) "report" = some (.string report)
      ∧ field (successBody report level) "safetyLevel" = some (.string level.text)
      ∧ field (successBody report level) "error" = none :=
  ⟨rfl, rfl, rfl, rfl⟩

/-- Every object passed to `res.json` is the failure object, or the success
object built from the final report and the level of the extracted signals. -/
theorem responses_shape (w : World) (req : Request) :
    ∀ body ∈ (handler w req).responses,
      (∃ m, body = failureBody m)
      ∨ (∃ d, w.mainDocument = .returns d
          ∧ body = successBody (render (handler w req).report) (safetyLevel (extract d))) := by
  rw [handler_responses, handler_report]
  have hcs := checkoutStep_responses w
  cases hl : w.launch with
  | throws m => simp [tryBlock, hl, Call.body?]
  | returns _ =>
  cases hn : w.newPage with
  | throws m =>
    simp only [tryBlock, hl, hn]
    split <;> simp [Call.body?]
  | returns _ =>
  cases hg : w.goto with
  | throws m =>
    simp only [tryBlock, hl, hn, hg]
    split <;> simp [Call.body?]
  | returns _ =>
  cases hd : w.mainDocument with
  | throws m =>
    simp only [tryBlock, hl, hn, hg, hd]
    split <;> simp [Call.body?]
  | returns d =>
  rw [tryBlock_analysed w req d hl hn hg hd]
  cases hq : checkoutCondition w req.userQuery with
  | throws m =>
    dsimp only
    split <;> simp [Call.body?]
  | returns c =>
  cases c <;> cases hc : w.close <;> cases hj : w.jsonSuccess
    <;> simp only [finish, hc, hj, List.filterMap_append, hcs]
    <;> (try split) <;> simp [Call.body?]

theorem responses_after_close (w : World) (req : Request) (d : Document) (c : Bool)
    (hl : w.launch = .returns ()) (hn : w.newPage = .returns ()) (hg : w.goto = .returns ())
    (hd : w.mainDocument = .returns d) (hq : checkoutCondition w req.userQuery = .returns c)
    (hc : w.close = .returns ()) :
    (handler w req).responses =
      successBody (render (handler w req).report) (safetyLevel (extract d)) ::
        (match w.jsonSuccess with
          | .returns _ => []
          | .throws m => if w.closeInCatch ≠ .returns () then [] else [failureBody m]) := by
  rw [handler_responses, handler_report, tryBlock_analysed w req d hl hn hg hd, hq]
  have hcs := checkoutStep_responses w
  cases c <;> cases hj : w.jsonSuccess
    <;> simp [finish, hc, hj, List.filterMap_append, hcs, Call.body?]

theorem responses_close_throws (w : World) (req : Request) (d : Document) (c : Bool)
    (m : String)
    (hl : w.launch = .returns ()) (hn : w.newPage = .returns ()) (hg : w.goto = .returns ())
    (hd : w.mainDocument = .returns d) (hq : checkoutCondition w req.userQuery = .returns c)
    (hc : w.close = .throws m) :
    (handler w req).responses =
      if w.closeInCatch ≠ .returns () then [] else [failureBody m] := by
  rw [handler_responses, tryBlock_analysed w req d hl hn hg hd, hq]
  have hcs := checkoutStep_responses w
  cases c <;> simp [finish, hc, List.filterMap_append, hcs, Call.body?]

theorem checkoutCondition_string (w : World) (q : String) :
    checkoutCondition w (.string q) =
      .returns (includes (w.toLowerCase q).toList "checkout".toList
        || includes (w.toLowerCase q).toList "payment".toList) := rfl

theorem verdict_successBody (report : String) (level : SafetyLevel) :
    verdict (successBody report level) =
      (some (.bool true), some (.string level.text), none) := rfl

theorem analysisLines_plain (a : Analysis) :
    ∀ l ∈ analysisLines a, l.isCheckoutSection = false ∧ l ≠ .checkoutFailed := by
  cases h1 : a.hasPaymentFields <;> cases h2 : a.hasSuspiciousFields <;> cases h3 : a.hasHttps
    <;> simp [analysisLines, h1, h2, h3, Line.isCheckoutSection]

theorem analysisLines_mem (a : Analysis) :
    (Line.cardWarning ∈ analysisLines a ↔ a.hasPaymentFields = true)
      ∧ (Line.ssnDanger ∈ analysisLines a ↔ a.hasSuspiciousFields = true)
      ∧ (Line.notHttpsWarning ∈ analysisLines a ↔ a.hasHttps = false) := by
  cases h1 : a.hasPaymentFields <;> cases h2 : a.hasSuspiciousFields <;> cases h3 : a.hasHttps
    <;> simp [analysisLines, h1, h2, h3]

theorem checkoutStep_null (w : World) (h : w.query = .returns false) :
    checkoutStep w = ([.query], []) := by
  simp [checkoutStep, h]

theorem checkoutStep_section (w : World) (l : Line) (hl : l ∈ (checkoutStep w).2)
    (hs : l.isCheckoutSection = true) : w.query = .returns true := by
  cases hq : w.query with
  | throws m =>
    simp only [checkoutStep, hq, List.mem_singleton] at hl
    subst hl
    simp [Line.isCheckoutSection] at hs
  | returns b =>
    cases b with
    | true => rfl
    | false => simp [checkoutStep, hq] at hl

theorem checkoutStep_failed (w : World) (h : checkoutStepThrows w = true) :
    Line.checkoutFailed ∈ (checkoutStep w).2 := by
  unfold checkoutStepThrows at h
  unfold checkoutStep
  split
  · simp
  · simp_all
  · split
    · simp
    · split
      · simp
      · split
        · simp
        · simp_all

theorem report_analysed (w : World) (req : Request) (d : Document)
    (hl : w.launch = .returns ()) (hn : w.newPage = .returns ()) (hg : w.goto = .returns ())
    (hd : w.mainDocument = .returns d) :
    (handler w req).report =
      [Line.starting, .navigating req.url.interpolate] ++ analysisLines (extract d)
        ++ (match checkoutCondition w req.userQuery with
            | .throws _ => []
            | .returns c =>
              (if c then (checkoutStep w).2 else [])
                ++ (match w.close with
                    | .returns _ => [.assessment (safetyLevel (extract d))]
                    | .throws _ => [])) := by
  rw [handler_report, tryBlock_analysed w req d hl hn hg hd]
  cases hq : checkoutCondition w req.userQuery with
  | throws m => simp
  | returns c =>
    cases c <;> cases hc : w.close <;> cases hj : w.jsonSuccess <;> simp [finish, hc, hj]

theorem fulfilled_all_return (w : World) (req : Request) (d : Document) (c : Bool)
    (hl : w.launch = .returns ()) (hn : w.newPage = .returns ()) (hg : w.goto = .returns ())
    (hd : w.mainDocument = .returns d) (hq : checkoutCondition w req.userQuery = .returns c)
    (hc : w.close = .returns ()) (hj : w.jsonSuccess = .returns ()) :
    (handler w req).fulfilled = true := by
  unfold handler
  rw [tryBlock_analysed w req d hl hn hg hd, hq]
  cases c <;> simp [finish, hc, hj]

/-- A success object is only sent after launch, page creation, navigation and
main extraction return, the condition of line 72 is evaluated and the browser
is closed. -/
theorem success_sent_inv (w : World) (req : Request) (body : JsonObject)
    (hb : body ∈ (handler w req).responses) (hs : field body "success" = some (.bool true)) :
    ∃ d c, w.launch = .returns () ∧ w.newPage = .returns () ∧ w.goto = .returns ()
      ∧ w.mainDocument = .returns d ∧ checkoutCondition w req.userQuery = .returns c
      ∧ w.close = .returns () := by
  have hf : ∀ m, body ≠ failureBody m := by
    rintro m rfl
    simp [(field_failureBody m).1] at hs
  rw [handler_responses] at hb
  cases hl : w.launch with
  | throws m =>
    simp [tryBlock, hl, Call.body?] at hb
    exact absurd hb (hf m)
  | returns _ =>
  cases hn : w.newPage with
  | throws m =>
    simp only [tryBlock, hl, hn] at hb
    split at hb <;> simp [Call.body?] at hb
    exact absurd hb (hf m)
  | returns _ =>
  cases hg : w.goto with
  | throws m =>
    simp only [tryBlock, hl, hn, hg] at hb
    split at hb <;> simp [Call.body?] at hb
    exact absurd hb (hf m)
  | returns _ =>
  cases hd : w.mainDocument with
  | throws m =>
    simp only [tryBlock, hl, hn, hg, hd] at hb
    split at hb <;> simp [Call.body?] at hb
    exact absurd hb (hf m)
  | returns d =>
  rw [tryBlock_analysed w req d hl hn hg hd] at hb
  cases hq : checkoutCondition w req.userQuery with
  | throws m =>
    rw [hq] at hb
    dsimp only at hb
    split at hb <;> simp [Call.body?] at hb
    exact absurd hb (hf m)
  | returns c =>
  cases hc : w.close with
  | returns _ => exact ⟨d, c, rfl, rfl, rfl, rfl, rfl, rfl⟩
  | throws m =>
    have hcs := checkoutStep_responses w
    rw [hq] at hb
    cases c <;> simp only [finish, hc, List.filterMap_append, hcs] at hb
      <;> split at hb <;> simp [Call.body?] at hb <;> exact absurd hb (hf m)

/-! ## The classification in the response -/

/-- C1: when the main extraction finds suspicious fields or a page that is
not served over HTTPS, the level is DANGEROUS: every success object sent has
`safetyLevel: "DANGEROUS"`, whatever the other signals, the query and the
checkout step; and a success object is sent first whenever launch, page
creation and navigation return, the query is a string and the browser
closes. -/
theorem dangerous_dominates (w : World) (req : Request) (d : Document)
    (hd : w.mainDocument = .returns d)
    (hflag : (extract d).hasSuspiciousFields = true ∨ (extract d).hasHttps = false) :
    safetyLevel (extract d) = .DANGEROUS
      ∧ (∀ body ∈ (handler w req).responses, field body "success" = some (.bool true) →
          field body "safetyLevel" = some (.string "DANGEROUS"))
      ∧ (w.launch = .returns () → w.newPage = .returns () → w.goto = .returns () →
          (∃ q, req.userQuery = .string q) → w.close = .returns () →
          (handler w req).responses.head? =
            some (successBody (render (handler w req).report) .DANGEROUS)) := by
  have hlevel : safetyLevel (extract d) = .DANGEROUS := by
    rcases hflag with h | h <;> simp [safetyLevel, h]
  refine ⟨hlevel, ?_, ?_⟩
  · intro body hb hs
    rcases responses_shape w req body hb with ⟨m, rfl⟩ | ⟨d', hd', rfl⟩
    · simp [(field_failureBody m).1] at hs
    · rw [hd] at hd'
      cases hd'
      rw [(field_successBody _ _).2.2.1, hlevel]
      rfl
  · rintro hl hn hg ⟨q, hq⟩ hc
    rw [responses_after_close w req d _ hl hn hg hd (hq ▸ checkoutCondition_string w q) hc,
      hlevel]
    rfl

/-- C1 at the example of the specification: a page without HTTPS, with payment
fields and without suspicious fields is answered with DANGEROUS. -/
theorem dangerous_dominates_witness :
    (extract insecureShop).hasHttps = false ∧ (extract insecureShop).hasPaymentFields = true
      ∧ (extract insecureShop).hasSuspiciousFields = false
      ∧ safetyLevel (extract insecureShop) = .DANGEROUS
      ∧ (handler insecureWorld checkoutRequest).responses.head? =
          some (successBody (render (handler insecureWorld checkoutRequest).report) .DANGEROUS) :=
  ⟨by decide, by decide, by decide,
    (dangerous_dominates insecureWorld checkoutRequest insecureShop rfl (Or.inr (by decide))).1,
    (dangerous_dominates insecureWorld checkoutRequest insecureShop rfl (Or.inr (by decide))).2.2
      rfl rfl rfl ⟨_, rfl⟩ rfl⟩

/-- C2: when the main extraction finds no suspicious field and the page is
served over HTTPS, the level is CAUTION with payment fields and SAFE without:
every success object sent carries that level, a success object is sent first
whenever launch, page creation and navigation return, the query is a string
and the browser closes; and each of the three levels is the level of some
document. -/
theorem caution_or_safe (w : World) (req : Request) (d : Document)
    (hd : w.mainDocument = .returns d)
    (hs : (extract d).hasSuspiciousFields = false) (hh : (extract d).hasHttps = true) :
    safetyLevel (extract d) = (if (extract d).hasPaymentFields then .CAUTION else .SAFE)
      ∧ (∀ body ∈ (handler w req).responses, field body "success" = some (.bool true) →
          field body "safetyLevel" =
            some (.string (if (extract d).hasPaymentFields then "CAUTION" else "SAFE")))
      ∧ (w.launch = .returns () → w.newPage = .returns () → w.goto = .returns () →
          (∃ q, req.userQuery = .string q) → w.close = .returns () →
          (handler w req).responses.head? =
            some (successBody (render (handler w req).report)
              (if (extract d).hasPaymentFields then .CAUTION else .SAFE)))
      ∧ (∀ level : SafetyLevel, ∃ d', safetyLevel (extract d') = level) := by
  have hlevel :
      safetyLevel (extract d) = (if (extract d).hasPaymentFields then .CAUTION else .SAFE) := by
    simp [safetyLevel, hs, hh]
  refine ⟨hlevel, ?_, ?_, ?_⟩
  · intro body hb hsucc
    rcases responses_shape w req body hb with ⟨m, rfl⟩ | ⟨d', hd', rfl⟩
    · simp [(field_failureBody m).1] at hsucc
    · rw [hd] at hd'
      cases hd'
      rw [(field_successBody _ _).2.2.1, hlevel]
      cases (extract d).hasPaymentFields <;> rfl
  · rintro hl hn hg ⟨q, hq⟩ hc
    rw [responses_after_close w req d _ hl hn hg hd (hq ▸ checkoutCondition_string w q) hc,
      hlevel]
    rfl
  · intro level
    cases level
    · exact ⟨plainDocument, by decide⟩
    · exact ⟨secureShop, by decide⟩
    · exact ⟨insecureShop, by decide⟩

/-- C2 at the example of the specification: an HTTPS page with payment fields
and without suspicious fields is answered with CAUTION. -/
theorem caution_or_safe_witness :
    (extract secureShop).hasHttps = true ∧ (extract secureShop).hasPaymentFields = true
      ∧ (extract secureShop).hasSuspiciousFields = false
      ∧ safetyLevel (extract secureShop) = .CAUTION
      ∧ (handler secureWorld checkoutRequest).responses.head? =
          some (successBody (render (handler secureWorld checkoutRequest).report) .CAUTION) :=
  ⟨by decide, by decide, by decide,
    (caution_or_safe secureWorld checkoutRequest secureShop rfl (by decide) (by decide)).1,
    (caution_or_safe secureWorld checkoutRequest secureShop rfl (by decide) (by decide)).2.2.1
      rfl rfl rfl ⟨_, rfl⟩ rfl⟩

/-! ## Releasing the browser -/

/-- C3 (as the code has it): when the launch throws, `browser.close` is never
called; when the launch returns it is called at least once and at most twice,
and exactly once when the `browser.close()` of line 96 and the sending of the
success response return, or are not reached because a setup step or the
condition of line 72 threw. -/
theorem closeCount_spec (w : World) (req : Request) :
    (∀ m, w.launch = .throws m → (handler w req).closeCount = 0)
      ∧ (w.launch = .returns () →
          1 ≤ (handler w req).closeCount ∧ (handler w req).closeCount ≤ 2)
      ∧ (w.launch = .returns () →
          (w.close = .returns () ∧ w.jsonSuccess = .returns ())
            ∨ setupError w ≠ none ∨ (∃ m, checkoutCondition w req.userQuery = .throws m) →
          (handler w req).closeCount = 1) := by
  rw [handler_closeCount]
  have hcs := checkoutStep_count_close w
  cases hl : w.launch with
  | throws m => simp [tryBlock, hl]
  | returns _ =>
  cases hn : w.newPage with
  | throws m => simp [tryBlock, hl, hn, List.count_cons]
  | returns _ =>
  cases hg : w.goto with
  | throws m => simp [tryBlock, hl, hn, hg, List.count_cons]
  | returns _ =>
  cases hd : w.mainDocument with
  | throws m => simp [tryBlock, hl, hn, hg, hd, List.count_cons]
  | returns d =>
  cases hq : checkoutCondition w req.userQuery with
  | throws m => simp [tryBlock, hl, hn, hg, hd, hq, List.count_cons]
  | returns c =>
  cases c <;> cases hc : w.close <;> cases hj : w.jsonSuccess
    <;> simp [tryBlock, finish, setupError, hl, hn, hg, hd, hq, hc, hj, hcs, List.count_cons,
      List.count_append]

/-- C3 in the world where every call returns: the browser is closed once. -/
theorem closeCount_spec_witness : (handler calmWorld checkoutRequest).closeCount = 1 :=
  (closeCount_spec calmWorld checkoutRequest).2.2 rfl (Or.inl ⟨rfl, rfl⟩)

/-- C3 (as stated) fails: `browser.close` is not called when the launch
throws, and is called twice when the `browser.close()` of line 96 throws or
when sending the success response throws. -/
theorem closeCount_not_always_one :
    (handler launchFailsWorld checkoutRequest).closeCount = 0
      ∧ (handler closeThrowsWorld checkoutRequest).closeCount = 2
      ∧ (handler sendThrowsWorld checkoutRequest).closeCount = 2 := by
  refine ⟨by decide, by decide, by decide⟩

/-! ## The checkout step -/

/-- C6: when launch, page creation, navigation and main extraction return,
the query mentions checkout or payment and an operation of the checkout step
throws, the line "Couldn't access checkout page" is appended; a failure
object is sent only for an error of the later `browser.close()` or of
sending the success response; when that `browser.close()` returns the first
response is the success object with the level of the extracted signals, and
the only one when sending it returns; and what the responses say is what
they say for a query that does not enter the step. -/
theorem checkout_failure_is_local (w : World) (req : Request) (d : Document) (q : String)
    (hl : w.launch = .returns ()) (hn : w.newPage = .returns ()) (hg : w.goto = .returns ())
    (hd : w.mainDocument = .returns d) (hq : req.userQuery = .string q)
    (hm : includes (w.toLowerCase q).toList "checkout".toList = true
      ∨ includes (w.toLowerCase q).toList "payment".toList = true)
    (ht : checkoutStepThrows w = true) :
    Line.checkoutFailed ∈ (handler w req).report
      ∧ (∀ body ∈ (handler w req).responses, field body "success" = some (.bool false) →
          ∃ m, (w.close = .throws m ∨ (w.close = .returns () ∧ w.jsonSuccess = .throws m))
            ∧ body = failureBody m)
      ∧ (w.close = .returns () →
          (handler w req).responses.head? =
            some (successBody (render (handler w req).report) (safetyLevel (extract d))))
      ∧ (w.close = .returns () → w.jsonSuccess = .returns () →
          (handler w req).responses =
              [successBody (render (handler w req).report) (safetyLevel (extract d))]
            ∧ (handler w req).fulfilled = true)
      ∧ (∀ q', checkoutCondition w (.string q') = .returns false →
          (handler w req).responses.map verdict =
            (handler w { req with userQuery := .string q' }).responses.map verdict) := by
  have hor : (includes (w.toLowerCase q).toList "checkout".toList
      || includes (w.toLowerCase q).toList "payment".toList) = true := by
    rw [Bool.or_eq_true]
    exact hm
  have hcond : checkoutCondition w req.userQuery = .returns true := by
    rw [hq, checkoutCondition_string, hor]
  refine ⟨?_, ?_, ?_, ?_, ?_⟩
  · rw [report_analysed w req d hl hn hg hd, hcond]
    simp [checkoutStep_failed w ht]
  · intro body hb hs
    cases hc : w.close with
    | throws m =>
      rw [responses_close_throws w req d true m hl hn hg hd hcond hc] at hb
      split at hb
      · simp at hb
      · exact ⟨m, Or.inl rfl, by simpa using hb⟩
    | returns _ =>
      rw [responses_after_close w req d true hl hn hg hd hcond hc] at hb
      rcases List.mem_cons.1 hb with rfl | hb
      · simp [(field_successBody _ _).1] at hs
      · cases hj : w.jsonSuccess with
        | returns _ => simp [hj] at hb
        | throws m =>
          rw [hj] at hb
          dsimp only at hb
          split at hb
          · simp at hb
          · exact ⟨m, Or.inr ⟨rfl, rfl⟩, by simpa using hb⟩
  · intro hc
    rw [responses_after_close w req d true hl hn hg hd hcond hc]
    rfl
  · intro hc hj
    refine ⟨?_, fulfilled_all_return w req d true hl hn hg hd hcond hc hj⟩
    rw [responses_after_close w req d true hl hn hg hd hcond hc, hj]
  · intro q' hq'
    cases hc : w.close with
    | throws m =>
      rw [responses_close_throws w req d true m hl hn hg hd hcond hc,
        responses_close_throws w { req with userQuery := .string q' } d false m hl hn hg hd hq' hc]
    | returns _ =>
      rw [responses_after_close w req d true hl hn hg hd hcond hc,
        responses_after_close w { req with userQuery := .string q' } d false hl hn hg hd hq' hc]
      simp [verdict_successBody]

/-- C6 in the world where the lookup of line 74 throws, as it does in the
browser: the failure line is appended and the request is answered with the
single success object, level SAFE. -/
theorem checkout_failure_is_local_witness :
    Line.checkoutFailed ∈ (handler calmWorld checkoutRequest).report
      ∧ (handler calmWorld checkoutRequest).responses =
          [successBody (render (handler calmWorld checkoutRequest).report) .SAFE] :=
  ⟨(checkout_failure_is_local calmWorld checkoutRequest plainDocument
      "I want to checkout now" rfl rfl rfl rfl rfl (Or.inl (by decide)) (by decide)).1,
    ((checkout_failure_is_local calmWorld checkoutRequest plainDocument
      "I want to checkout now" rfl rfl rfl rfl rfl (Or.inl (by decide)) (by decide)).2.2.2.1
        rfl rfl).1⟩

/-- C7: when launch, page creation, navigation and main extraction return, a
line of the checkout section is appended only if the query is a string whose
lower-casing contains "checkout" or "payment" and the lookup returned an
element; a query containing neither makes no lookup and no click; and for the
query "I want to checkout now" with a lookup that returns no element (it
returns `null` or, as in the browser, throws), no line of the checkout
section is appended, the first response is the success object when the
`browser.close()` of line 96 returns, and the only one when sending it
returns. On the throwing lookup the failure line is appended when the
lower-cased query contains "checkout". -/
theorem checkout_section_only_when_asked (w : World) (req : Request) (d : Document)
    (hl : w.launch = .returns ()) (hn : w.newPage = .returns ()) (hg : w.goto = .returns ())
    (hd : w.mainDocument = .returns d) :
    (∀ l ∈ (handler w req).report, l.isCheckoutSection = true →
        (∃ q, req.userQuery = .string q
          ∧ (includes (w.toLowerCase q).toList "checkout".toList = true
            ∨ includes (w.toLowerCase q).toList "payment".toList = true))
        ∧ w.query = .returns true)
      ∧ (∀ q, req.userQuery = .string q →
          includes (w.toLowerCase q).toList "checkout".toList = false →
          includes (w.toLowerCase q).toList "payment".toList = false →
          Call.query ∉ (handler w req).calls ∧ Call.click ∉ (handler w req).calls)
      ∧ (req.userQuery = .string "I want to checkout now" →
          (w.query = .returns false ∨ ∃ m, w.query = .throws m) →
          (∀ l ∈ (handler w req).report, l.isCheckoutSection = false)
          ∧ (w.close = .returns () →
              (handler w req).responses.head? =
                some (successBody (render (handler w req).report) (safetyLevel (extract d))))
          ∧ (w.close = .returns () → w.jsonSuccess = .returns () →
              (handler w req).responses =
                [successBody (render (handler w req).report) (safetyLevel (extract d))]
              ∧ field (successBody (render (handler w req).report) (safetyLevel (extract d)))
                  "success" = some (.bool true))
          ∧ ((∃ m, w.query = .throws m) →
              includes (w.toLowerCase "I want to checkout now").toList "checkout".toList = true →
              Line.checkoutFailed ∈ (handler w req).report)) := by
  have hplain := analysisLines_plain (extract d)
  have hsection : ∀ l ∈ (handler w req).report, l.isCheckoutSection = true →
      (∃ q, req.userQuery = .string q
        ∧ (includes (w.toLowerCase q).toList "checkout".toList = true
          ∨ includes (w.toLowerCase q).toList "payment".toList = true))
      ∧ w.query = .returns true := by
    intro l hmem hs
    rw [report_analysed w req d hl hn hg hd] at hmem
    cases hq : checkoutCondition w req.userQuery with
    | throws m =>
      rw [hq] at hmem
      simp only [List.append_nil, List.mem_append, List.mem_cons, List.mem_singleton,
        List.not_mem_nil, or_false] at hmem
      rcases hmem with (rfl | rfl) | h
      · simp [Line.isCheckoutSection] at hs
      · simp [Line.isCheckoutSection] at hs
      · simp [(hplain l h).1] at hs
    | returns c =>
      rw [hq] at hmem
      have hstep : l ∈ (if c = true then (checkoutStep w).2 else []) := by
        simp only [List.mem_append, List.mem_cons, List.mem_singleton, List.not_mem_nil,
          or_false] at hmem
        rcases hmem with ((rfl | rfl) | h) | h | h
        · simp [Line.isCheckoutSection] at hs
        · simp [Line.isCheckoutSection] at hs
        · simp [(hplain l h).1] at hs
        · exact h
        · cases hc : w.close with
          | throws m => simp [hc] at h
          | returns _ =>
            simp only [hc, List.mem_singleton] at h
            subst h
            simp [Line.isCheckoutSection] at hs
      cases c with
      | false => simp at hstep
      | true =>
        refine ⟨?_, checkoutStep_section w l (by simpa using hstep) hs⟩
        cases hu : req.userQuery with
        | string q =>
          rw [hu, checkoutCondition_string] at hq
          refine ⟨q, rfl, ?_⟩
          simpa using hq
        | undefined => simp [hu, checkoutCondition] at hq
        | null => simp [hu, checkoutCondition] at hq
        | other shown => simp [hu, checkoutCondition] at hq
  refine ⟨hsection, ?_, ?_⟩
  · intro q hq h1 h2
    have hcond : checkoutCondition w req.userQuery = .returns false := by
      rw [hq, checkoutCondition_string, h1, h2]
      rfl
    unfold handler
    rw [tryBlock_analysed w req d hl hn hg hd, hcond]
    cases hc : w.close <;> cases hj : w.jsonSuccess <;> cases hcc : w.closeInCatch
      <;> cases hjf : w.jsonFailure <;> simp [finish, catchBlock, hc, hj, hcc, hjf]
  · intro hq hnone
    have hcond : checkoutCondition w req.userQuery =
        .returns (includes (w.toLowerCase "I want to checkout now").toList "checkout".toList
          || includes (w.toLowerCase "I want to checkout now").toList "payment".toList) := by
      rw [hq, checkoutCondition_string]
    refine ⟨?_, ?_, ?_, ?_⟩
    · intro l hmem
      cases hs : l.isCheckoutSection with
      | false => rfl
      | true =>
        have hfound := (hsection l hmem hs).2
        rcases hnone with h | ⟨m, h⟩
        · rw [h] at hfound
          cases hfound
        · rw [h] at hfound
          cases hfound
    · intro hc
      rw [responses_after_close w req d _ hl hn hg hd hcond hc]
      rfl
    · intro hc hj
      refine ⟨?_, rfl⟩
      rw [responses_after_close w req d _ hl hn hg hd hcond hc, hj]
    · rintro ⟨m, hthrow⟩ hinc
      have hthrows : checkoutStepThrows w = true := by
        simp [checkoutStepThrows, hthrow]
      rw [report_analysed w req d hl hn hg hd, hcond, hinc]
      simp [checkoutStep_failed w hthrows]

/-- C7 at the example of the specification, with the lookup throwing as it
does in the browser: the query "I want to checkout now" gives a report
without a line of the checkout section, with the failure line, and the
success object; and a query without the keywords makes no lookup. -/
theorem checkout_section_only_when_asked_witness :
    (∀ l ∈ (handler calmWorld checkoutRequest).report, l.isCheckoutSection = false)
      ∧ Line.checkoutFailed ∈ (handler calmWorld checkoutRequest).report
      ∧ (handler calmWorld checkoutRequest).responses =
          [successBody (render (handler calmWorld checkoutRequest).report) .SAFE]
      ∧ Call.query ∉ (handler calmWorld safeQueryRequest).calls :=
  ⟨((checkout_section_only_when_asked calmWorld checkoutRequest plainDocument
      rfl rfl rfl rfl).2.2 rfl (Or.inr ⟨_, rfl⟩)).1,
    ((checkout_section_only_when_asked calmWorld checkoutRequest plainDocument
      rfl rfl rfl rfl).2.2 rfl (Or.inr ⟨_, rfl⟩)).2.2.2 ⟨_, rfl⟩ (by decide),
    (((checkout_section_only_when_asked calmWorld checkoutRequest plainDocument
      rfl rfl rfl rfl).2.2 rfl (Or.inr ⟨_, rfl⟩)).2.2.1 rfl rfl).1,
    ((checkout_section_only_when_asked calmWorld safeQueryRequest plainDocument
      rfl rfl rfl rfl).2.1 "is this site safe?" rfl (by decide) (by decide)).1⟩

/-! ## Failures -/

/-- C8 (as the code has it): when launch, page creation, navigation or the
main extraction throws an error with message `e`, every object passed to
`res.json` is the failure object with `error: "Analysis failed: " ++ e`,
which has `success: false`, the fixed report and no `safetyLevel`. When the
launch threw, that object is the response and `browser.close` is not called.
When the launch had returned and the `browser.close()` of the catch block
returns, that object is the response and the run ends with that single
`browser.close()` followed by the response. -/
theorem setup_failure_response (w : World) (req : Request) (e : String)
    (he : setupError w = some e) :
    (∀ body ∈ (handler w req).responses, body = failureBody e)
      ∧ ((∃ m, w.launch = .throws m) →
          (handler w req).responses = [failureBody e] ∧ (handler w req).closeCount = 0)
      ∧ (w.launch = .returns () → w.closeInCatch = .returns () →
          (handler w req).responses = [failureBody e] ∧ (handler w req).closeCount = 1
            ∧ ∃ before, (handler w req).calls = before ++ [.close, .json (failureBody e)]
                ∧ Call.close ∉ before)
      ∧ failureBody e =
          [("success", .bool false), ("error", .string ("Analysis failed: " ++ e)),
            ("report", .string "❌ Could not analyze this website")]
      ∧ field (failureBody e) "safetyLevel" = none := by
  refine ⟨?_, ?_, ?_, rfl, rfl⟩
  · rw [handler_responses]
    cases hl : w.launch with
    | throws m =>
      simp only [setupError, hl, Option.some.injEq] at he
      subst he
      simp [tryBlock, hl, Call.body?]
    | returns _ =>
    cases hn : w.newPage with
    | throws m =>
      simp only [setupError, hl, hn, Option.some.injEq] at he
      subst he
      simp only [tryBlock, hl, hn]
      split <;> simp [Call.body?]
    | returns _ =>
    cases hg : w.goto with
    | throws m =>
      simp only [setupError, hl, hn, hg, Option.some.injEq] at he
      subst he
      simp only [tryBlock, hl, hn, hg]
      split <;> simp [Call.body?]
    | returns _ =>
    cases hd : w.mainDocument with
    | throws m =>
      simp only [setupError, hl, hn, hg, hd, Option.some.injEq] at he
      subst he
      simp only [tryBlock, hl, hn, hg, hd]
      split <;> simp [Call.body?]
    | returns d => simp [setupError, hl, hn, hg, hd] at he
  · rintro ⟨m, hl⟩
    simp only [setupError, hl, Option.some.injEq] at he
    subst he
    refine ⟨?_, ?_⟩
    · rw [handler_responses]
      simp [tryBlock, hl, Call.body?]
    · rw [handler_closeCount]
      simp [tryBlock, hl]
  · intro hl hcc
    refine ⟨?_, ?_, ?_⟩
    · rw [handler_responses]
      cases hn : w.newPage with
      | throws m =>
        simp only [setupError, hl, hn, Option.some.injEq] at he
        subst he
        simp [tryBlock, hl, hn, hcc, Call.body?]
      | returns _ =>
      cases hg : w.goto with
      | throws m =>
        simp only [setupError, hl, hn, hg, Option.some.injEq] at he
        subst he
        simp [tryBlock, hl, hn, hg, hcc, Call.body?]
      | returns _ =>
      cases hd : w.mainDocument with
      | throws m =>
        simp only [setupError, hl, hn, hg, hd, Option.some.injEq] at he
        subst he
        simp [tryBlock, hl, hn, hg, hd, hcc, Call.body?]
      | returns d => simp [setupError, hl, hn, hg, hd] at he
    · rw [handler_closeCount]
      cases hn : w.newPage with
      | throws m => simp [tryBlock, hl, hn, List.count_cons]
      | returns _ =>
      cases hg : w.goto with
      | throws m => simp [tryBlock, hl, hn, hg, List.count_cons]
      | returns _ =>
      cases hd : w.mainDocument with
      | throws m => simp [tryBlock, hl, hn, hg, hd, List.count_cons]
      | returns d => simp [setupError, hl, hn, hg, hd] at he
    · unfold handler
      cases hn : w.newPage with
      | throws m =>
        simp only [setupError, hl, hn, Option.some.injEq] at he
        subst he
        refine ⟨[.launch, .newPage], ?_, by simp⟩
        cases hjf : w.jsonFailure <;> simp [tryBlock, catchBlock, hl, hn, hcc, hjf]
      | returns _ =>
      cases hg : w.goto with
      | throws m =>
        simp only [setupError, hl, hn, hg, Option.some.injEq] at he
        subst he
        refine ⟨[.launch, .newPage, .goto req.url], ?_, by simp⟩
        cases hjf : w.jsonFailure <;> simp [tryBlock, catchBlock, hl, hn, hg, hcc, hjf]
      | returns _ =>
      cases hd : w.mainDocument with
      | throws m =>
        simp only [setupError, hl, hn, hg, hd, Option.some.injEq] at he
        subst he
        refine ⟨[.launch, .newPage, .goto req.url, .evaluate], ?_, by simp⟩
        cases hjf : w.jsonFailure <;> simp [tryBlock, catchBlock, hl, hn, hg, hd, hcc, hjf]
      | returns d => simp [setupError, hl, hn, hg, hd] at he

/-- C8 when the navigation exceeds its timeout and the browser closes: the
single response is the failure object with the timeout message, and the
browser is closed once. -/
theorem setup_failure_response_witness :
    (handler timeoutWorld checkoutRequest).responses =
        [failureBody "Navigation timeout of 30000 ms exceeded"]
      ∧ (handler timeoutWorld checkoutRequest).closeCount = 1 :=
  ⟨((setup_failure_response timeoutWorld checkoutRequest
      "Navigation timeout of 30000 ms exceeded" rfl).2.2.1 rfl rfl).1,
    ((setup_failure_response timeoutWorld checkoutRequest
      "Navigation timeout of 30000 ms exceeded" rfl).2.2.1 rfl rfl).2.1⟩

/-- C8 (as stated) fails: when the navigation exceeds its timeout and the
`browser.close()` of the catch block throws, nothing is passed to `res.json`
and the error leaves the handler. -/
theorem setup_failure_without_response :
    setupError timeoutCloseThrowsWorld = some "Navigation timeout of 30000 ms exceeded"
      ∧ (handler timeoutCloseThrowsWorld checkoutRequest).responses = []
      ∧ (handler timeoutCloseThrowsWorld checkoutRequest).fulfilled = false := by
  refine ⟨by decide, by decide, by decide⟩

/-- C10 (as the code has it): when the body has no `userQuery` and launch,
page creation, navigation and main extraction return, evaluating the
condition of line 72 throws outside the inner `try`: no lookup is made, the
first `browser.close()` is the one of the catch block, right after the main
extraction, and it is the only one; every object passed to `res.json` is the
failure object, whatever the document; and when that `browser.close()`
returns, the failure object is the response. -/
theorem missing_query_fails (w : World) (req : Request) (d : Document)
    (hl : w.launch = .returns ()) (hn : w.newPage = .returns ()) (hg : w.goto = .returns ())
    (hd : w.mainDocument = .returns d) (hq : req.userQuery = .undefined) :
    (handler w req).calls.take 5 = [.launch, .newPage, .goto req.url, .evaluate, .close]
      ∧ (handler w req).closeCount = 1
      ∧ Call.query ∉ (handler w req).calls
      ∧ (∀ body ∈ (handler w req).responses,
          body = failureBody undefinedMessage ∧ field body "success" = some (.bool false)
            ∧ field body "safetyLevel" = none)
      ∧ (w.closeInCatch = .returns () →
          (handler w req).calls =
              [.launch, .newPage, .goto req.url, .evaluate, .close,
                .json (failureBody undefinedMessage)]
            ∧ (handler w req).responses = [failureBody undefinedMessage]) := by
  have hcalls : (handler w req).calls =
      [.launch, .newPage, .goto req.url, .evaluate, .close]
        ++ (match w.closeInCatch with
            | .returns _ => [.json (failureBody undefinedMessage)]
            | .throws _ => []) := by
    unfold handler
    rw [tryBlock_analysed w req d hl hn hg hd, hq]
    cases hcc : w.closeInCatch <;> cases hjf : w.jsonFailure
      <;> simp [checkoutCondition, catchBlock, hcc, hjf]
  refine ⟨?_, ?_, ?_, ?_, ?_⟩
  · rw [hcalls]
    rfl
  · rw [Run.closeCount, hcalls]
    cases hcc : w.closeInCatch <;> simp [List.count_cons]
  · rw [hcalls]
    cases hcc : w.closeInCatch <;> simp
  · intro body hb
    rw [Run.responses, hcalls] at hb
    cases hcc : w.closeInCatch with
    | throws m => simp [hcc, Call.body?] at hb
    | returns _ =>
      simp [hcc, Call.body?] at hb
      subst hb
      exact ⟨rfl, rfl, rfl⟩
  · intro hcc
    rw [Run.responses, hcalls, hcc]
    simp [Call.body?]

/-- C10 on the plain page when the browser closes: the request without
`userQuery` is answered with the failure object and the browser is closed
once. -/
theorem missing_query_fails_witness :
    (handler calmWorld bareRequest).responses = [failureBody undefinedMessage]
      ∧ (handler calmWorld bareRequest).closeCount = 1 :=
  ⟨((missing_query_fails calmWorld bareRequest plainDocument rfl rfl rfl rfl rfl).2.2.2.2
      rfl).2,
    (missing_query_fails calmWorld bareRequest plainDocument rfl rfl rfl rfl rfl).2.1⟩

/-- C10 (as stated) fails: when the body has no `userQuery`, launch, page
creation, navigation and main extraction return and the `browser.close()` of
the catch block throws, nothing is passed to `res.json` and the error leaves
the handler. -/
theorem missing_query_without_response :
    bareRequest.userQuery = .undefined
      ∧ setupError catchCloseThrowsWorld = none
      ∧ (handler catchCloseThrowsWorld bareRequest).responses = []
      ∧ (handler catchCloseThrowsWorld bareRequest).fulfilled = false := by
  refine ⟨rfl, by decide, by decide, by decide⟩

/-! ## The report -/

/-- C9: for a success object passed to `res.json`, the object carries the
final report and the level of the extracted signals; the credit-card line is
in the report iff `hasPaymentFields`, the SSN line iff `hasSuspiciousFields`,
the not-HTTPS line iff `hasHttps` is false; the level is DANGEROUS iff the
SSN line or the not-HTTPS line is in the report and SAFE iff none of the
three is; and the report text ends with the assessment line of that level. -/
theorem report_consistent (w : World) (req : Request) (body : JsonObject)
    (hb : body ∈ (handler w req).responses) (hs : field body "success" = some (.bool true)) :
    ∃ d level, w.mainDocument = .returns d ∧ level = safetyLevel (extract d)
      ∧ body = successBody (render (handler w req).report) level
      ∧ field body "safetyLevel" = some (.string level.text)
      ∧ field body "report" = some (.string (render (handler w req).report))
      ∧ (Line.cardWarning ∈ (handler w req).report ↔ (extract d).hasPaymentFields = true)
      ∧ (Line.ssnDanger ∈ (handler w req).report ↔ (extract d).hasSuspiciousFields = true)
      ∧ (Line.notHttpsWarning ∈ (handler w req).report ↔ (extract d).hasHttps = false)
      ∧ (level = .DANGEROUS ↔
          Line.ssnDanger ∈ (handler w req).report
            ∨ Line.notHttpsWarning ∈ (handler w req).report)
      ∧ (level = .SAFE ↔
          Line.cardWarning ∉ (handler w req).report ∧ Line.ssnDanger ∉ (handler w req).report
            ∧ Line.notHttpsWarning ∉ (handler w req).report)
      ∧ ∃ before, render (handler w req).report =
          before ++ ("\n" ++ level.emoji ++ " SAFETY ASSESSMENT: " ++ level.text ++ "\n") := by
  obtain ⟨d, c, hl, hn, hg, hd, hq, hc⟩ := success_sent_inv w req body hb hs
  have hbody : body = successBody (render (handler w req).report) (safetyLevel (extract d)) := by
    rcases responses_shape w req body hb with ⟨m, rfl⟩ | ⟨d', hd', rfl⟩
    · simp [(field_failureBody m).1] at hs
    · rw [hd] at hd'
      cases hd'
      rfl
  have hrep := report_analysed w req d hl hn hg hd
  rw [hq, hc] at hrep
  dsimp only at hrep
  obtain ⟨hno1, hno2, hno3⟩ := checkoutStep_not_mem w
  obtain ⟨hm1, hm2, hm3⟩ := analysisLines_mem (extract d)
  have hcard : Line.cardWarning ∈ (handler w req).report ↔ (extract d).hasPaymentFields = true := by
    rw [hrep, ← hm1]
    cases c <;> simp [hno1]
  have hssn : Line.ssnDanger ∈ (handler w req).report ↔ (extract d).hasSuspiciousFields = true := by
    rw [hrep, ← hm2]
    cases c <;> simp [hno2]
  have hhttps : Line.notHttpsWarning ∈ (handler w req).report ↔ (extract d).hasHttps = false := by
    rw [hrep, ← hm3]
    cases c <;> simp [hno3]
  refine ⟨d, safetyLevel (extract d), hd, rfl, hbody, ?_, ?_, hcard, hssn, hhttps, ?_, ?_, ?_⟩
  · rw [hbody]; rfl
  · rw [hbody]; rfl
  · rw [hssn, hhttps]
    cases h1 : (extract d).hasPaymentFields <;> cases h2 : (extract d).hasSuspiciousFields
      <;> cases h3 : (extract d).hasHttps <;> simp [safetyLevel, h1, h2, h3]
  · rw [hcard, hssn, hhttps]
    cases h1 : (extract d).hasPaymentFields <;> cases h2 : (extract d).hasSuspiciousFields
      <;> cases h3 : (extract d).hasHttps <;> simp [safetyLevel, h1, h2, h3]
  · rw [hrep, ← List.append_assoc, render_concat]
    exact ⟨_, rfl⟩

/-- C9 on the HTTPS payment page: the success object has level CAUTION, the
credit-card line is in the report and the report ends with the CAUTION
assessment line. -/
theorem report_consistent_witness :
    ∃ d level, secureWorld.mainDocument = .returns d ∧ level = safetyLevel (extract d)
      ∧ successBody (render (handler secureWorld checkoutRequest).report) .CAUTION =
          successBody (render (handler secureWorld checkoutRequest).report) level
      ∧ Line.cardWarning ∈ (handler secureWorld checkoutRequest).report
      ∧ ∃ before, render (handler secureWorld checkoutRequest).report =
          before ++ ("\n" ++ level.emoji ++ " SAFETY ASSESSMENT: " ++ level.text ++ "\n") := by
  have hsent : (handler secureWorld checkoutRequest).responses =
      [successBody (render (handler secureWorld checkoutRequest).report) .CAUTION] := rfl
  obtain ⟨d, level, hd, hlevel, hbody, -, -, hcard, -, -, -, -, hend⟩ :=
    report_consistent secureWorld checkoutRequest
      (successBody (render (handler secureWorld checkoutRequest).report) .CAUTION)
      (hsent ▸ List.mem_singleton_self _) rfl
  have hd' : d = secureShop := by
    have h : Outcome.returns secureShop = Outcome.returns d := hd
    cases h
    rfl
  subst hd'
  exact ⟨secureShop, level, hd, hlevel, hbody, hcard.2 (by decide), hend⟩

end BrowserAgent
